import Mathlib

/-!
Verification development for the ecoh-media-service repository.

The definitions below are a shallow embedding of the media-processing
orchestrator and its adapters:

* `MediaService.processUploadedMedia`   (src/media/media.service.ts)
* `MediaService.updateModerationStatus` (src/media/media.service.ts)
* `ContentModerator.moderateContent` / `moderateImage` / `isImage` / `isVideo`
  (src/aws/content-moderator.service.ts, the two-argument version that
  media.service.ts calls)
* `VideoTranscoder.transcodeVideo` / `checkJobStatus`
  (src/aws/video-transcoder.service.ts)
* `WorkerService.processMessage` / `processVideoModerationMessage`
  (src/worker/worker.service.ts)

Modelling conventions:
* Asynchronous adapter calls are represented by environment records whose
  fields hold the downstream outcome (`Except Unit _` for calls that can
  throw).  A deterministic environment stands for "the same downstream
  answer on a replay", which is what the idempotence claims quantify over.
* The relational store is a `List Media`; the two DynamoDB job-ledger
  tables are association lists keyed by job id.  DynamoDB `update` is an
  upsert, embedded as `upsert`.
* Wall-clock columns (`createdAt` / `updatedAt` / `deletedAt`) are outside
  the model: they are auto-managed timestamps, not data the code computes.
* A JavaScript object spread is embedded as `spreadMerge`, which has the
  same key-lookup semantics (`upd` wins over `base`); key ordering inside
  a metadata object is abstracted.
* `connection.transaction` is embedded by running the callback as a pure
  function on the store and discarding its writes when it returns an
  error: `processUploadedMedia` returns the original store on failure.
  S3 uploads are not transactional; they are reported in a separate
  `uploadedKeys` trace exactly as the code performs them.
-/

deriving instance DecidableEq for Except

namespace EcohMedia

/-! ## Data model (src/media/media.entity.ts, src/common/enums/media-type.enum.ts) -/

/-- Media kinds.  The enum file itself is not in the snapshot; the values
are the ones the code uses (`IMAGE`, `PROFILE_PICTURE`, `VIDEO`) plus the
album-cover kind named by the spec. -/
inductive MediaType
  | image
  | profilePicture
  | video
  | albumCover
deriving DecidableEq, Repr

/-- A structured metadata value (JSON scalar or list of URLs). -/
inductive MetaVal
  | str (s : String)
  | nat (n : Nat)
  | urls (l : List String)
deriving DecidableEq, Repr

/-- Embeds `media.metadata`: a JSON object, embedded as an association list. -/
abbrev Metadata := List (String × MetaVal)

/-- The `Media` entity (wall-clock columns omitted, see header). -/
structure Media where
  id : String
  url : String
  key : String
  type : MediaType
  uploadedBy : String
  tags : List String
  thumbnailUrl : Option String
  metadata : Metadata
  isFlagged : Bool
deriving DecidableEq, Repr

/-- A Rekognition moderation label (`Name`, `ParentName`). -/
structure Label where
  name : String
  parentName : String
deriving DecidableEq, Repr

/-! ## Generic store operations -/

/-- Embeds `manager.findOne(Media, { where: { id } })`. -/
def findMedia : List Media → String → Option Media
  | [], _ => Option.none
  | m :: rest, i => if m.id = i then some m else findMedia rest i

/-- Row update keyed by primary id (TypeORM save / query-builder update). -/
def updateMediaDb (i : String) (f : Media → Media) (db : List Media) : List Media :=
  db.map (fun m => if m.id = i then f m else m)

/-- Embeds `manager.save(media)`: write the (mutated) entity back under its id. -/
def saveMedia (db : List Media) (m : Media) : List Media :=
  updateMediaDb m.id (fun _ => m) db

/-- Association-list lookup by key (DynamoDB `get`). -/
def lookupKey (k : String) : List (String × α) → Option α
  | [] => Option.none
  | (k', v) :: rest => if k' = k then some v else lookupKey k rest

/-- DynamoDB `update` semantics: update the item when present, otherwise
create it from the default item `d`. -/
def upsert (k : String) (f : α → α) (d : α) : List (String × α) → List (String × α)
  | [] => [(k, f d)]
  | (k', v) :: rest =>
      if k' = k then (k', f v) :: rest else (k', v) :: upsert k f d rest

/-- Embeds `{ ...base, ...upd }`: keys of `upd` override keys of `base`. -/
def hasKeyB (m : Metadata) (k : String) : Bool :=
  m.any (fun kv => kv.fst == k)

/-- JavaScript object spread on metadata objects. -/
def spreadMerge (base upd : Metadata) : Metadata :=
  base.filter (fun kv => !(hasKeyB upd kv.fst)) ++ upd

/-! ## String helpers mirroring the key manipulation in the source -/

/-- JS `String.prototype.toLowerCase` (character-wise lowering). -/
def jsToLower (s : String) : String :=
  String.mk (s.data.map Char.toLower)

/-- JS `String.prototype.trim`: strip leading and trailing whitespace. -/
def jsTrim (s : String) : String :=
  String.mk (((s.data.dropWhile Char.isWhitespace).reverse.dropWhile Char.isWhitespace).reverse)

/-- JS `s.endsWith(suf)`. -/
def jsEndsWith (s suf : String) : Bool :=
  List.isSuffixOf suf.data s.data

/-- JS `s.startsWith(pre)`. -/
def jsStartsWith (s p : String) : Bool :=
  List.isPrefixOf p.data s.data

/-- A regex `\w` character. -/
def isWordChar (c : Char) : Bool := c.isAlphanum || c = '_'

/-- Split `key` at its final `(\.\w+)$` extension, as matched by the
`key.replace(/(\.\w+)$/, ...)` calls in media.service.ts. -/
def splitDotExt (key : String) : Option (String × String) :=
  let r := key.data.reverse
  let w := r.takeWhile isWordChar
  match r.drop w.length with
  | '.' :: stemRev =>
      if w.isEmpty then Option.none
      else some (String.mk stemRev.reverse, String.mk w.reverse)
  | _ => Option.none

/-- Embeds `key.replace(/(\.\w+)$/, repl)` where `repl` may use the captured
extension. -/
def replaceExt (key : String) (repl : String → String) : String :=
  match splitDotExt key with
  | some (stem, ext) => stem ++ repl ext
  | Option.none => key

/-- Embeds `key.replace(/(\.\w+)$/, '_thumbnail$1')`. -/
def thumbnailKeyOf (key : String) : String :=
  replaceExt key (fun ext => "_thumbnail." ++ ext)

/-- Embeds `key.replace(/(\.\w+)$/, '_optimized.webp')`. -/
def optimizedKeyOf (key : String) : String :=
  replaceExt key (fun _ => "_optimized.webp")

/-- Rendition ladder used by `generateResponsiveImages`. -/
def resolutions : List Nat := [320, 640, 1024, 1600]

/-- Embeds `key.replace(/(\.\w+)$/, `_[width]px.webp`)`. -/
def responsiveKeyOf (key : String) (width : Nat) : String :=
  replaceExt key (fun _ => "_" ++ toString width ++ "px.webp")

/-- Embeds `https://${cloudFrontDomain}/${key}`. -/
def urlOf (domain key : String) : String :=
  "https://" ++ domain ++ "/" ++ key

/-- Image extensions recognized by `ContentModerator.isImage`
(`/\.(jpg|jpeg|png|gif|bmp|tiff|webp)$/i`). -/
def imageExts : List String := ["jpg", "jpeg", "png", "gif", "bmp", "tiff", "webp"]

/-- Video extensions recognized by `ContentModerator.isVideo`. -/
def videoExts : List String :=
  ["mp4", "mov", "avi", "wmv", "flv", "mkv", "webm", "m4v", "3gp", "quicktime"]

/-- Embeds `ContentModerator.isImage`: case-insensitive extension test. -/
def isImage (key : String) : Bool :=
  imageExts.any (fun e => jsEndsWith (jsToLower key) ("." ++ e))

/-- Embeds `ContentModerator.isVideo`: case-insensitive extension test. -/
def isVideo (key : String) : Bool :=
  videoExts.any (fun e => jsEndsWith (jsToLower key) ("." ++ e))

/-- First-occurrence substring replacement (JS `String.replace` with a
string pattern). -/
def replaceFirstList (pat rep : List Char) : List Char → List Char
  | [] => []
  | c :: cs =>
      if List.isPrefixOf pat (c :: cs) then rep ++ (c :: cs).drop pat.length
      else c :: replaceFirstList pat rep cs

/-- JS `s.replace(pat, rep)` for a plain-string pattern. -/
def replaceFirst (s pat rep : String) : String :=
  String.mk (replaceFirstList pat.data rep.data s.data)

/-- Embeds `key.replace(/\.[^/.]+$/, '')`: drop a final dot-extension that
contains neither a slash nor another dot. -/
def dropLastExt (s : String) : String :=
  let r := s.data.reverse
  let w := r.takeWhile (fun c => c ≠ '.' && c ≠ '/')
  match r.drop w.length with
  | '.' :: stemRev => if w.isEmpty then s else String.mk stemRev.reverse
  | _ => s

/-- Embeds `VideoTranscoder.extractFileName`: strip the `video/` path component
and the extension. -/
def extractFileName (key : String) : String :=
  dropLastExt (replaceFirst key "video/" "")

/-- Embeds `VideoTranscoder.extractOutputUrl`. -/
def extractOutputUrl (domain videoKey : String) : String :=
  "https://" ++ domain ++ "/videos/transcoded/" ++ extractFileName videoKey ++ ".m3u8"

/-! ## Tag normalization (media.service.ts lines 182-189) -/

/-- Embeds `tag.trim().toLowerCase()`. -/
def normalizeTag (s : String) : String := jsToLower (jsTrim s)

/-- Insertion pass of a JS `Set`: keep an element only on its first
occurrence, tracking the elements already seen. -/
def dedupFirstAux (seen : List String) : List String → List String
  | [] => []
  | x :: xs =>
      if x ∈ seen then dedupFirstAux seen xs
      else x :: dedupFirstAux (x :: seen) xs

/-- Embeds `Array.from(new Set(...))`: deduplicate keeping first occurrences. -/
def dedupFirst (l : List String) : List String := dedupFirstAux [] l

/-- The tag merge performed on the clean-image path:
`Array.from(new Set([...(media.tags ?? []), ...detectedTags]
  .map(t => t.trim().toLowerCase()).filter(t => t.length > 0)))`. -/
def mergeTags (existing detected : List String) : List String :=
  dedupFirst (((existing ++ detected).map normalizeTag).filter (fun t => t.length != 0))

/-! ## Detection & moderation adapter (src/aws, the versions media.service.ts calls) -/

/-- Embeds `['Explicit Nudity', 'Violence'].includes(label.ParentName || '')`. -/
def isExplicitLabel (l : Label) : Bool :=
  l.parentName = "Explicit Nudity" || l.parentName = "Violence"

/-- Downstream environment for one ingest call.  Each field is the outcome
of the corresponding external call for the asset's key. -/
structure IngestEnv where
  /-- Embeds `process.env.AWS_CLOUDFRONT_URL`. -/
  cloudFrontDomain : String
  /-- Outcome of the S3 `getObject` + Rekognition `detectModerationLabels`
  chain inside `ContentModerator.moderateImage`: the returned labels, or a
  downstream error (network failure / timeout). -/
  imageModeration : Except Unit (List Label)
  /-- Outcome of `ContentModerator.moderateVideo` (job submission): the
  provider job id, or a thrown error. -/
  videoModerationJob : Except Unit String
  /-- Outcome of the S3 + Rekognition `detectLabels` chain inside
  `ObjectDetector.detectObjects`: the raw label names, or an error. -/
  detectLabels : Except Unit (List String)
  /-- Whether the S3/sharp work in `generateImageThumbnail` succeeds. -/
  thumbnailOk : Bool
  /-- Whether the S3/sharp work in `optimizeImage` succeeds. -/
  optimizeOk : Bool
  /-- Outcome of the raw `s3.getObject` used for metadata extraction. -/
  rawObject : Except Unit Unit
  /-- What `extractImageMetadata` returns (it never throws: it falls back
  to sharp and finally to `{}`). -/
  imageMetadata : Metadata
  /-- Whether the S3/sharp work in `generateResponsiveImages` succeeds
  (on failure the method catches and returns `[]`). -/
  responsiveOk : Bool
  /-- Whether the `PROFILE_IMAGE_UPDATE` SNS publish succeeds. -/
  publishProfileOk : Bool
  /-- Outcome of `VideoTranscoder.transcodeVideo` for the video branch. -/
  transcode : Except Unit Unit

/-- Embeds `ContentModerator.moderateImage`: on any downstream failure the method
catches the error, logs, and returns `false` (not flagged).  On success it
flags when any returned label has an explicit/violent parent. -/
def moderateImage (env : IngestEnv) : Bool :=
  match env.imageModeration with
  | .ok labels => !(labels.filter isExplicitLabel).isEmpty
  | .error _ => false

/-- Result of `ContentModerator.moderateContent`: a boolean verdict for
images, a job id string for videos. -/
inductive ModOutcome
  | flag (b : Bool)
  | job (id : String)
deriving DecidableEq, Repr

/-- Which moderation routine `moderateContent` entered (and hence which
moderation provider call it attempted). -/
inductive RekCall
  | imageModerationCall
  | videoModerationCall
deriving DecidableEq, Repr

/-- Embeds `ContentModerator.moderateContent(mediaId, key)` together with the
trace of moderation routines entered.  Keys matching neither extension
list are answered `false` without entering either routine. -/
def moderateContent (env : IngestEnv) (_mediaId key : String) :
    Except Unit ModOutcome × List RekCall :=
  if isImage key then
    (.ok (.flag (moderateImage env)), [.imageModerationCall])
  else if isVideo key then
    match env.videoModerationJob with
    | .ok jobId => (.ok (.job jobId), [.videoModerationCall])
    | .error e => (.error e, [.videoModerationCall])
  else
    (.ok (.flag false), [])

/-- Embeds `ObjectDetector.detectObjects`: best-effort; normalizes label names
and returns `[]` on any downstream failure. -/
def detectObjects (env : IngestEnv) : List String :=
  match env.detectLabels with
  | .ok labels => (labels.map (fun s => jsToLower (jsTrim s))).filter (fun t => t.length != 0)
  | .error _ => []

/-! ## Image transform adapter (media.service.ts) -/

/-- Outcome of a transform that uploads a derived object and returns a
URL: the S3 key the object was put under, and the URL the method returns. -/
structure UploadResult where
  uploadedKey : String
  returnedUrl : String
deriving DecidableEq, Repr

/-- Embeds `MediaService.generateImageThumbnail`: uploads the resized object
under `thumbnailKeyOf key` but returns the URL built from the original
`key` (faithful to the source). -/
def generateImageThumbnail (env : IngestEnv) (key : String) : Except Unit UploadResult :=
  if env.thumbnailOk then .ok ⟨thumbnailKeyOf key, urlOf env.cloudFrontDomain key⟩
  else .error ()

/-- Embeds `MediaService.optimizeImage`: uploads the WebP rendition under
`optimizedKeyOf key` but returns the URL built from the original `key`
(faithful to the source). -/
def optimizeImage (env : IngestEnv) (key : String) : Except Unit UploadResult :=
  if env.optimizeOk then .ok ⟨optimizedKeyOf key, urlOf env.cloudFrontDomain key⟩
  else .error ()

/-- Embeds `MediaService.generateResponsiveImages`: uploads one rendition per
ladder width and returns their URLs (built from the derived keys); on any
failure it catches and returns `[]`. -/
def generateResponsiveImages (env : IngestEnv) (key : String) : List String :=
  if env.responsiveOk then
    resolutions.map (fun w => urlOf env.cloudFrontDomain (responsiveKeyOf key w))
  else []

/-! ## Processing orchestrator (MediaService.processUploadedMedia) -/

/-- Errors surfaced by the ingest transaction (the thrown
`BadRequestException`s, by site). -/
inductive IngestErr
  | mediaNotFound
  | moderationSubmitFailed
  | thumbnailFailed
  | optimizeFailed
  | s3GetFailed
  | invalidProfileUrl
  | profilePublishFailed
  | videoProcessingFailed
deriving DecidableEq, Repr

/-- Embeds `media.thumbnailUrl || media.url` (JS falsiness: an empty string falls
through to `url`). -/
def profileUrlOf (m : Media) : String :=
  match m.thumbnailUrl with
  | some t => if t = "" then m.url else t
  | Option.none => m.url

/-- Embeds `MediaService.updateUserProfilePicture(mediaId, userId, manager)`:
re-fetches the stored record, derives the best URL, and publishes the
`PROFILE_IMAGE_UPDATE` event; each failure throws. -/
def updateUserProfilePicture (env : IngestEnv) (db : List Media) (mediaId : String) :
    Except IngestErr Unit :=
  match findMedia db mediaId with
  | Option.none => .error .mediaNotFound
  | some m =>
      if profileUrlOf m = "" then .error .invalidProfileUrl
      else if env.publishProfileOk then .ok ()
      else .error .profilePublishFailed

/-- The image branch of `processUploadedMedia` (lines 169-221): moderation,
then — when not flagged — detection/tag merge, thumbnail, optimization,
metadata + responsive renditions, and the profile-picture notification.
Returns the entity to be saved (or the thrown error) together with the
S3 keys uploaded before returning. -/
def ingestImageBranch (env : IngestEnv) (db : List Media) (media : Media)
    (key : String) : Except IngestErr Media × List String :=
  match (moderateContent env media.id key).fst with
  | .error _ => (.error .moderationSubmitFailed, [])
  | .ok outcome =>
    let m1 : Media :=
      { media with isFlagged := match outcome with | .flag b => b | .job _ => false }
    if m1.isFlagged then (.ok m1, [])
    else
      let m2 : Media := { m1 with tags := mergeTags m1.tags (detectObjects env) }
      match generateImageThumbnail env key with
      | .error _ => (.error .thumbnailFailed, [])
      | .ok thumb =>
        let m3 : Media := { m2 with thumbnailUrl := some thumb.returnedUrl }
        match optimizeImage env key with
        | .error _ => (.error .optimizeFailed, [thumb.uploadedKey])
        | .ok opt =>
          let m4 : Media := { m3 with url := opt.returnedUrl }
          match env.rawObject with
          | .error _ => (.error .s3GetFailed, [thumb.uploadedKey, opt.uploadedKey])
          | .ok _ =>
            let responsive := generateResponsiveImages env key
            let newMeta := spreadMerge env.imageMetadata [("responsiveImages", MetaVal.urls responsive)]
            let m5 : Media := { m4 with metadata := newMeta }
            let uploads := thumb.uploadedKey :: opt.uploadedKey ::
              (if env.responsiveOk then resolutions.map (responsiveKeyOf key) else [])
            if m5.type = MediaType.profilePicture then
              match updateUserProfilePicture env db media.id with
              | .error e => (.error e, uploads)
              | .ok _ => (.ok m5, uploads)
            else (.ok m5, uploads)

/-- The `connection.transaction` callback of `processUploadedMedia`.
The video branch submits the moderation job, writes the
`video_moderation_jobs` item, and submits the transcode job; any failure
there is caught and re-thrown as a `BadRequestException`.  (The DynamoDB
ledger writes of the video branch are to a non-relational store and are
not part of this relational-store model.) -/
def ingestTxn (env : IngestEnv) (db : List Media) (mediaId key : String) :
    Except IngestErr (List Media) × List String :=
  match findMedia db mediaId with
  | Option.none => (.error .mediaNotFound, [])
  | some media =>
    if media.type = MediaType.image ∨ media.type = MediaType.profilePicture then
      match ingestImageBranch env db media key with
      | (.error e, up) => (.error e, up)
      | (.ok m', up) => (.ok (saveMedia db m'), up)
    else if media.type = MediaType.video then
      match env.videoModerationJob with
      | .error _ => (.error .videoProcessingFailed, [])
      | .ok _jobId =>
        match env.transcode with
        | .error _ => (.error .videoProcessingFailed, [])
        | .ok _ => (.ok (saveMedia db media), [])
    else (.ok (saveMedia db media), [])

/-- Result of one `processUploadedMedia` call: the relational store after
the transaction, the surfaced outcome, and the S3 keys uploaded (S3 side
effects are not rolled back with the transaction). -/
structure IngestResult where
  db : List Media
  outcome : Except IngestErr Unit
  uploadedKeys : List String
deriving DecidableEq, Repr

/-- Embeds `MediaService.processUploadedMedia`: run the transaction; on error all
relational writes are rolled back and the error propagates to the caller. -/
def processUploadedMedia (env : IngestEnv) (db : List Media) (mediaId key : String) :
    IngestResult :=
  match ingestTxn env db mediaId key with
  | (.ok db', up) => ⟨db', .ok (), up⟩
  | (.error e, up) => ⟨db, .error e, up⟩

/-! ## Job ledger and asynchronous reconciliation -/

/-- Item of the `video_moderation_jobs` DynamoDB table. -/
structure ModJobRec where
  mediaId : String := ""
  key : String := ""
  status : String := ""
  isFlagged : Option Bool := Option.none
deriving DecidableEq, Repr

/-- Item of the `transcoding_jobs` DynamoDB table. -/
structure TransJobRec where
  mediaId : String := ""
  videoKey : String := ""
  status : String := ""
deriving DecidableEq, Repr

/-- A fresh `video_moderation_jobs` item (all attributes absent). -/
def emptyModJob : ModJobRec := {}

/-- A fresh `transcoding_jobs` item (all attributes absent). -/
def emptyTransJob : TransJobRec := {}

/-- Joint state of the relational store and the two job-ledger tables. -/
structure SysState where
  mediaDb : List Media
  modJobs : List (String × ModJobRec)
  transJobs : List (String × TransJobRec)
deriving DecidableEq, Repr

/-- Downstream environment for the asynchronous video pipeline.
Deterministic functions stand for "the provider gives the same answer on
a replay of the same job". -/
structure VideoEnv where
  /-- Embeds `process.env.AWS_CLOUDFRONT_URL` of the transcoder. -/
  cloudFrontDomain : String
  /-- Embeds `mediaConvert.getJob(jobId).Job?.Status`. -/
  jobStatus : String → Option String
  /-- Embeds `MediaService.extractVideoMetadata(videoKey)` (returns `{}` when the
  probe fails; never throws). -/
  videoMeta : String → Metadata

/-- The Rekognition SNS notification consumed by
`WorkerService.processVideoModerationMessage`. -/
structure ModMessage where
  jobId : String
  jobTag : String
  status : String
  labels : List Label
deriving DecidableEq, Repr

/-- Embeds `MediaService.updateModerationStatus`: sets `isFlagged` on the record
when it exists; a missing record is logged and ignored. -/
def updateModerationStatus (db : List Media) (mediaId : String) (flagged : Bool) :
    List Media :=
  updateMediaDb mediaId (fun m => { m with isFlagged := flagged }) db

/-- Embeds `WorkerService.processVideoModerationMessage`: on `SUCCEEDED`, derive
the verdict from the labels, write it to the relational record, and mark
the ledger item `COMPLETED`; otherwise mark the ledger item `FAILED`.
A missing `JobTag` is logged and discarded. -/
def processVideoModerationMessage (st : SysState) (msg : ModMessage) : SysState :=
  if msg.jobTag = "" then st
  else if msg.status = "SUCCEEDED" then
    let flagged := !(msg.labels.filter isExplicitLabel).isEmpty
    let st1 := { st with mediaDb := updateModerationStatus st.mediaDb msg.jobTag flagged }
    let jobs1 := upsert msg.jobId (fun r => { r with status := "COMPLETED", isFlagged := some flagged }) emptyModJob st1.modJobs
    { st1 with modJobs := jobs1 }
  else
    let jobs2 := upsert msg.jobId (fun r => { r with status := "FAILED" }) emptyModJob st.modJobs
    { st with modJobs := jobs2 }

/-- Embeds `VideoTranscoder.checkJobStatus`: poll the provider, map the job id
back through the `transcoding_jobs` ledger, on `COMPLETE` write the
streaming URL and merge the probed metadata into the record, and record
the observed status in the ledger. -/
def checkJobStatus (env : VideoEnv) (st : SysState) (jobId : String) : SysState :=
  match env.jobStatus jobId with
  | Option.none => st
  | some status =>
    match lookupKey jobId st.transJobs with
    | Option.none => st
    | some rec =>
      if rec.mediaId = "" || rec.videoKey = "" then st
      else if status = "COMPLETE" then
        let outputUrl := extractOutputUrl env.cloudFrontDomain rec.videoKey
        if outputUrl = "" then st
        else
          let dbA := updateMediaDb rec.mediaId (fun m => { m with url := outputUrl }) st.mediaDb
          let dbB := updateMediaDb rec.mediaId
            (fun m => { m with metadata := spreadMerge m.metadata (env.videoMeta rec.videoKey) }) dbA
          let jobsA := upsert jobId (fun r => { r with status := status }) emptyTransJob st.transJobs
          { st with mediaDb := dbB, transJobs := jobsA }
      else
        let jobsB := upsert jobId (fun r => { r with status := status }) emptyTransJob st.transJobs
        { st with transJobs := jobsB }

/-- A terminal notification for one external job, as the dispatcher routes
it: a Rekognition moderation message, or a transcode poll observation. -/
inductive ExternalOutcome
  | moderation (msg : ModMessage)
  | transcode (jobId : String)
deriving DecidableEq, Repr

/-- The reconciliation entry point: route the outcome to the handler that
the worker/cron actually invokes. -/
def reconcileExternalJob (env : VideoEnv) (st : SysState) : ExternalOutcome → SysState
  | .moderation msg => processVideoModerationMessage st msg
  | .transcode jobId => checkJobStatus env st jobId

/-! ## Transcode submission (VideoTranscoder.transcodeVideo) -/

/-- Errors thrown by `transcodeVideo`. -/
inductive TransErr
  | invalidPath
  | transcodingFailed
deriving DecidableEq, Repr

/-- Provider/ledger effects performed by `transcodeVideo`. -/
inductive TransEffect
  | describeEndpoints
  | createJob
  | ledgerPut (jobId mediaId key : String)
deriving DecidableEq, Repr

/-- Environment for one `transcodeVideo` call: the MediaConvert `createJob`
outcome (`Job?.Id`, which the API marks optional, or a thrown error). -/
structure TranscodeEnv where
  createJobResult : Except Unit (Option String)

/-- Embeds `VideoTranscoder.transcodeVideo(mediaId, key)`: keys outside the
`video/` input area are rejected before any provider contact; otherwise
the job is created and its id persisted in `transcoding_jobs`.  The
returned trace lists the provider/ledger operations actually performed. -/
def transcodeVideo (env : TranscodeEnv) (mediaId key : String) :
    Except TransErr Unit × List TransEffect :=
  if jsStartsWith key "video/" then
    match env.createJobResult with
    | .error _ => (.error .transcodingFailed, [.describeEndpoints, .createJob])
    | .ok Option.none => (.error .transcodingFailed, [.describeEndpoints, .createJob])
    | .ok (some jobId) =>
        (.ok (), [.describeEndpoints, .createJob, .ledgerPut jobId mediaId key])
  else
    (.error .invalidPath, [])

/-! ## Queue dispatcher (WorkerService.processMessage) -/

/-- An SQS message as the dispatcher sees it. -/
structure SqsMessage where
  receiptHandle : Option String
  body : Option String
deriving DecidableEq, Repr

/-- Observable queue-side actions of `processMessage`. -/
inductive QueueAction
  | handleAttempt (body : String)
  | deleteMessage (receiptHandle : String)
deriving DecidableEq, Repr

/-- Embeds `WorkerService.processMessage`: a message without receipt handle or
body is logged and skipped; otherwise the body is parsed and routed to
the orchestrator (`handle`), and the message is deleted only after that
returns without error — a thrown error is caught and the message is left
on the queue for redelivery. -/
def processMessage (handle : String → Except Unit Unit) (msg : SqsMessage) :
    List QueueAction :=
  match msg.receiptHandle, msg.body with
  | some rh, some b =>
    match handle b with
    | .ok _ => [.handleAttempt b, .deleteMessage rh]
    | .error _ => [.handleAttempt b]
  | _, _ => []

/-! ## Helper lemmas about the store and tag operations -/

theorem mem_dedupFirstAux (a : String) :
    ∀ (l seen : List String), a ∈ dedupFirstAux seen l ↔ a ∈ l ∧ a ∉ seen := by
  intro l
  induction l with
  | nil => intro seen; simp [dedupFirstAux]
  | cons x xs ih =>
      intro seen
      by_cases h : x ∈ seen
      · simp only [dedupFirstAux, if_pos h, ih, List.mem_cons]
        constructor
        · rintro ⟨ha, hs⟩; exact ⟨Or.inr ha, hs⟩
        · rintro ⟨ha | ha, hs⟩
          · exact absurd (ha ▸ h) hs
          · exact ⟨ha, hs⟩
      · simp only [dedupFirstAux, if_neg h, List.mem_cons, ih]
        constructor
        · rintro (rfl | ⟨ha, hs⟩)
          · exact ⟨Or.inl rfl, h⟩
          · exact ⟨Or.inr ha, fun hm => hs (Or.inr hm)⟩
        · rintro ⟨rfl | ha, hs⟩
          · exact Or.inl rfl
          · by_cases hax : a = x
            · exact Or.inl hax
            · exact Or.inr ⟨ha, fun hc => hc.elim hax hs⟩

theorem mem_dedupFirst (a : String) (l : List String) :
    a ∈ dedupFirst l ↔ a ∈ l := by
  simp [dedupFirst, mem_dedupFirstAux]

theorem nodup_dedupFirstAux : ∀ (l seen : List String), (dedupFirstAux seen l).Nodup := by
  intro l
  induction l with
  | nil => intro seen; simp [dedupFirstAux]
  | cons x xs ih =>
      intro seen
      by_cases h : x ∈ seen
      · simpa [dedupFirstAux, if_pos h] using ih seen
      · simp only [dedupFirstAux, if_neg h]
        refine List.Nodup.cons ?_ (ih (x :: seen))
        intro hx
        exact ((mem_dedupFirstAux x xs (x :: seen)).mp hx).2 (List.mem_cons_self x seen)

theorem nodup_dedupFirst (l : List String) : (dedupFirst l).Nodup :=
  nodup_dedupFirstAux l []

theorem string_eq_empty_iff (s : String) : s = "" ↔ s.data = [] := by
  constructor
  · intro h; rw [h]
  · intro h; cases s; simp only at h; rw [h]

theorem string_length_eq_zero (s : String) : s.length = 0 ↔ s = "" := by
  have hl : s.length = s.data.length := rfl
  rw [hl, List.length_eq_zero, string_eq_empty_iff]

/-- Characterization of the merged tag list: exactly the nonempty
normalizations of caller-supplied and detected tags. -/
theorem mem_mergeTags (T D : List String) (t : String) :
    t ∈ mergeTags T D ↔ t ≠ "" ∧ ∃ s, (s ∈ T ∨ s ∈ D) ∧ normalizeTag s = t := by
  simp only [mergeTags, mem_dedupFirst, List.mem_filter, List.mem_map, List.mem_append,
    bne_iff_ne, ne_eq, string_length_eq_zero]
  constructor
  · rintro ⟨⟨s, hs, rfl⟩, hne⟩; exact ⟨hne, s, hs, rfl⟩
  · rintro ⟨hne, s, hs, rfl⟩; exact ⟨⟨s, hs, rfl⟩, hne⟩

theorem nodup_mergeTags (T D : List String) : (mergeTags T D).Nodup :=
  nodup_dedupFirst _

/-- A record found by id carries that id. -/
theorem findMedia_some_id : ∀ (db : List Media) (i : String) (m : Media),
    findMedia db i = some m → m.id = i := by
  intro db
  induction db with
  | nil => intro i m h; simp [findMedia] at h
  | cons x rest ih =>
      intro i m h
      by_cases hx : x.id = i
      · simp only [findMedia, if_pos hx, Option.some.injEq] at h
        exact h ▸ hx
      · simp only [findMedia, if_neg hx] at h
        exact ih i m h

/-- Saving an entity whose id was found makes it the record returned by a
subsequent lookup of that id. -/
theorem findMedia_saveMedia : ∀ (db : List Media) (m' : Media) (i : String),
    (∃ m₀, findMedia db i = some m₀) → m'.id = i →
    findMedia (saveMedia db m') i = some m' := by
  intro db
  induction db with
  | nil => rintro m' i ⟨m₀, h⟩ _; simp [findMedia] at h
  | cons x rest ih =>
      rintro m' i ⟨m₀, h⟩ hid
      simp only [saveMedia, updateMediaDb, List.map_cons]
      by_cases hx : x.id = m'.id
      · rw [if_pos hx]
        simp [findMedia, hid]
      · have hxi : ¬ x.id = i := fun hc => hx (hc.trans hid.symm)
        simp only [findMedia, if_neg hxi] at h
        have hrest := ih m' i ⟨m₀, h⟩ hid
        simp only [saveMedia, updateMediaDb] at hrest
        simp only [if_neg hx, findMedia, if_neg hxi]
        exact hrest

/-- Lookup after an upsert of the same key. -/
theorem lookupKey_upsert (k : String) (f : α → α) (d : α) :
    ∀ l : List (String × α),
      lookupKey k (upsert k f d l) = some (f ((lookupKey k l).getD d)) := by
  intro l
  induction l with
  | nil => simp [upsert, lookupKey]
  | cons kv rest ih =>
      obtain ⟨k', v⟩ := kv
      by_cases h : k' = k
      · simp [upsert, lookupKey, h]
      · simp [upsert, lookupKey, h, ih]

/-- Upserting the same constant update twice is the same as once. -/
theorem upsert_idem (k : String) (f : α → α) (d : α) (hf : ∀ v, f (f v) = f v) :
    ∀ l : List (String × α), upsert k f d (upsert k f d l) = upsert k f d l := by
  intro l
  induction l with
  | nil => simp [upsert, hf]
  | cons kv rest ih =>
      obtain ⟨k', v⟩ := kv
      by_cases h : k' = k
      · simp [upsert, h, hf]
      · simp [upsert, h, ih]

/-- Composition of two id-keyed row updates. -/
theorem updateMediaDb_comp (i : String) (f g : Media → Media)
    (hg : ∀ m, (g m).id = m.id) (db : List Media) :
    updateMediaDb i f (updateMediaDb i g db) = updateMediaDb i (fun m => f (g m)) db := by
  simp only [updateMediaDb, List.map_map]
  refine congrArg (fun fn => List.map fn db) (funext fun m => ?_)
  by_cases h : m.id = i
  · simp [Function.comp, h, hg]
  · simp [Function.comp, h]

/-- An idempotent row update applied twice. -/
theorem updateMediaDb_idem (i : String) (f : Media → Media)
    (hf : ∀ m, f (f m) = f m) (hid : ∀ m, (f m).id = m.id) (db : List Media) :
    updateMediaDb i f (updateMediaDb i f db) = updateMediaDb i f db := by
  rw [updateMediaDb_comp i f f hid]
  exact congrArg (fun fn => List.map fn db) (funext fun m => by by_cases h : m.id = i <;> simp [h, hf])

/-- Lookup through an id-preserving row update. -/
theorem findMedia_updateMediaDb (i : String) (f : Media → Media)
    (hid : ∀ m, (f m).id = m.id) :
    ∀ db : List Media, findMedia (updateMediaDb i f db) i = (findMedia db i).map f := by
  intro db
  induction db with
  | nil => simp [findMedia, updateMediaDb]
  | cons x rest ih =>
      by_cases h : x.id = i
      · simp [updateMediaDb, findMedia, h, hid]
      · simpa [updateMediaDb, findMedia, h] using ih

/-- A JS object spread absorbs a repeat of the same right-hand object. -/
theorem spreadMerge_idem (b u : Metadata) :
    spreadMerge (spreadMerge b u) u = spreadMerge b u := by
  have hself : u.filter (fun kv => !(hasKeyB u kv.fst)) = [] := by
    refine List.filter_eq_nil_iff.mpr ?_
    intro kv hkv
    simp only [hasKeyB, Bool.not_eq_true', Bool.not_eq_false]
    exact List.any_eq_true.mpr ⟨kv, hkv, by simp⟩
  have hff : (b.filter (fun kv => !(hasKeyB u kv.fst))).filter (fun kv => !(hasKeyB u kv.fst))
      = b.filter (fun kv => !(hasKeyB u kv.fst)) := by
    rw [List.filter_filter]
    exact congrArg (fun p => List.filter p b) (funext fun kv => Bool.and_self _)
  simp only [spreadMerge, List.filter_append, hself, hff, List.append_nil]

/-! ## Claim C9 -/

/-- C9: `moderateContent` classifies by file-name extension alone; a key
matching neither the recognized image extensions nor the recognized video
extensions is answered `false` (not flagged) without entering either
moderation routine, i.e. without invoking any moderation provider. -/
theorem unmatched_extension_passes_unmoderated (env : IngestEnv) (mediaId key : String)
    (hi : isImage key = false) (hv : isVideo key = false) :
    moderateContent env mediaId key = (.ok (.flag false), []) := by
  simp [moderateContent, hi, hv]

theorem unmatched_extension_passes_unmoderated_witness :
    (isImage "docs/readme.txt" = false ∧ isVideo "docs/readme.txt" = false) ∧
    moderateContent
      { cloudFrontDomain := "cdn", imageModeration := .ok [], videoModerationJob := .ok "j",
        detectLabels := .ok [], thumbnailOk := true, optimizeOk := true, rawObject := .ok (),
        imageMetadata := [], responsiveOk := true, publishProfileOk := true, transcode := .ok () }
      "m" "docs/readme.txt" = (.ok (.flag false), []) :=
  ⟨⟨by decide, by decide⟩,
   unmatched_extension_passes_unmoderated _ "m" "docs/readme.txt" (by decide) (by decide)⟩

/-! ## Claim C10 -/

/-- C10: `transcodeVideo(mediaId, key)` requires the key to begin with the
`video/` input area; any other key is rejected with an error before the
transcoding provider is contacted and before any job record is written:
the effect trace is empty. -/
theorem transcode_rejects_non_video_area (env : TranscodeEnv) (mediaId key : String)
    (h : jsStartsWith key "video/" = false) :
    transcodeVideo env mediaId key = (.error .invalidPath, []) := by
  simp [transcodeVideo, h]

theorem transcode_rejects_non_video_area_witness :
    (jsStartsWith "image/a.mp4" "video/" = false) ∧
    transcodeVideo ⟨.ok (some "j1")⟩ "m1" "image/a.mp4" = (.error .invalidPath, []) :=
  ⟨by decide, transcode_rejects_non_video_area ⟨.ok (some "j1")⟩ "m1" "image/a.mp4" (by decide)⟩

/-! ## Claim C7 -/

/-- C7: the dispatcher never acknowledges a message before the
corresponding orchestrator call returns successfully: whenever a
`deleteMessage` action appears in the trace of `processMessage`, the
handler was invoked on the message body and returned without error, and
the deletion comes after that invocation; consequently a message whose
processing raises an error is never deleted and stays on the queue. -/
theorem ack_only_after_handler_success (handle : String → Except Unit Unit)
    (msg : SqsMessage) (rh : String)
    (hdel : QueueAction.deleteMessage rh ∈ processMessage handle msg) :
    ∃ b, msg.body = some b ∧ handle b = .ok () ∧
      processMessage handle msg = [.handleAttempt b, .deleteMessage rh] := by
  obtain ⟨orh, ob⟩ := msg
  cases orh with
  | none => simp [processMessage] at hdel
  | some r =>
    cases ob with
    | none => simp [processMessage] at hdel
    | some b =>
      cases hh : handle b with
      | ok u =>
          cases u
          simp only [processMessage, hh, List.mem_cons, List.not_mem_nil, or_false] at hdel
          rcases hdel with hcontra | hr
          · exact absurd hcontra (by simp)
          · have hrr : rh = r := by
              simpa using hr
            subst hrr
            exact ⟨b, rfl, hh, by simp [processMessage, hh]⟩
      | error e =>
          cases e
          simp [processMessage, hh] at hdel

theorem ack_only_after_handler_success_witness :
    (QueueAction.deleteMessage "r1" ∈
      processMessage (fun _ => .ok ()) ⟨some "r1", some "payload"⟩) ∧
    (∃ b, (⟨some "r1", some "payload"⟩ : SqsMessage).body = some b ∧
      (fun _ : String => (.ok () : Except Unit Unit)) b = .ok () ∧
      processMessage (fun _ => .ok ()) ⟨some "r1", some "payload"⟩ =
        [.handleAttempt b, .deleteMessage "r1"]) :=
  ⟨by decide,
   ack_only_after_handler_success (fun _ => .ok ()) ⟨some "r1", some "payload"⟩ "r1" (by decide)⟩

/-! ## Claim C2 -/

/-- C2: for an image-kind asset whose moderation verdict is flagged, the
transaction saves the record with only the moderation flag changed: the
tag list stays the caller-supplied tags, the thumbnail URL, public URL
and metadata are untouched, and no derived object is uploaded (the S3
upload trace is empty, so no thumbnail, optimized rendition or responsive
rendition is produced). -/
theorem flagged_image_ingest_frame (env : IngestEnv) (db : List Media) (media : Media)
    (mediaId key : String)
    (hfind : findMedia db mediaId = some media)
    (htype : media.type = MediaType.image ∨ media.type = MediaType.profilePicture)
    (hkey : isImage key = true)
    (hmod : moderateImage env = true) :
    processUploadedMedia env db mediaId key =
      ⟨saveMedia db { media with isFlagged := true }, .ok (), []⟩ := by
  simp [processUploadedMedia, ingestTxn, hfind, htype, ingestImageBranch,
    moderateContent, hkey, hmod]

def c2Env : IngestEnv :=
  { cloudFrontDomain := "cdn", imageModeration := .ok [⟨"Graphic Violence", "Violence"⟩],
    videoModerationJob := .ok "j", detectLabels := .ok ["dog"], thumbnailOk := true,
    optimizeOk := true, rawObject := .ok (), imageMetadata := [], responsiveOk := true,
    publishProfileOk := true, transcode := .ok () }

def c2Media : Media :=
  { id := "m2", url := "https://cdn/image/b.png", key := "image/b.png",
    type := MediaType.image, uploadedBy := "u", tags := ["pets"],
    thumbnailUrl := Option.none, metadata := [], isFlagged := false }

theorem flagged_image_ingest_frame_witness :
    (findMedia [c2Media] "m2" = some c2Media ∧
     (c2Media.type = MediaType.image ∨ c2Media.type = MediaType.profilePicture) ∧
     isImage "image/b.png" = true ∧ moderateImage c2Env = true) ∧
    processUploadedMedia c2Env [c2Media] "m2" "image/b.png" =
      ⟨saveMedia [c2Media] { c2Media with isFlagged := true }, .ok (), []⟩ :=
  ⟨⟨by decide, by decide, by decide, by decide⟩,
   flagged_image_ingest_frame c2Env [c2Media] c2Media "m2" "image/b.png"
     (by decide) (by decide) (by decide) (by decide)⟩

/-! ## Claim C5 -/

/-- C5: for a clean image ingest (moderation clean, transforms succeed)
with caller-supplied tags `media.tags` and detected labels `D`, the
persisted tag list is duplicate-free and contains exactly the nonempty
trim-and-lowercase normalizations of the caller tags and the detected
labels — i.e. the set union of the two after trimming, lower-casing and
removal of empty strings, order-irrelevant and deduplicated. -/
theorem clean_image_tag_union (env : IngestEnv) (db : List Media) (media : Media)
    (mediaId key : String) (D : List String)
    (hfind : findMedia db mediaId = some media)
    (htype : media.type = MediaType.image)
    (hkey : isImage key = true)
    (hclean : moderateImage env = false)
    (hthumb : env.thumbnailOk = true)
    (hopt : env.optimizeOk = true)
    (hraw : env.rawObject = .ok ())
    (hD : detectObjects env = D) :
    ∃ m', findMedia (processUploadedMedia env db mediaId key).db mediaId = some m' ∧
      (processUploadedMedia env db mediaId key).outcome = .ok () ∧
      m'.tags.Nodup ∧
      (∀ t, t ∈ m'.tags ↔ t ≠ "" ∧ ∃ s, (s ∈ media.tags ∨ s ∈ D) ∧ normalizeTag s = t) := by
  have hmid : media.id = mediaId := findMedia_some_id db mediaId media hfind
  have hnp : ¬ media.type = MediaType.profilePicture := by simp [htype]
  have hshape : processUploadedMedia env db mediaId key =
      ⟨saveMedia db
        { media with
            isFlagged := false,
            tags := mergeTags media.tags D,
            thumbnailUrl := some (urlOf env.cloudFrontDomain key),
            url := urlOf env.cloudFrontDomain key,
            metadata := spreadMerge env.imageMetadata
              [("responsiveImages", MetaVal.urls (generateResponsiveImages env key))] },
        .ok (),
        thumbnailKeyOf key :: optimizedKeyOf key ::
          (if env.responsiveOk then resolutions.map (responsiveKeyOf key) else [])⟩ := by
    simp [processUploadedMedia, ingestTxn, hfind, htype, ingestImageBranch, moderateContent,
      hkey, hclean, generateImageThumbnail, hthumb, optimizeImage, hopt, hraw, hD, hnp]
  refine ⟨{ media with
      isFlagged := false,
      tags := mergeTags media.tags D,
      thumbnailUrl := some (urlOf env.cloudFrontDomain key),
      url := urlOf env.cloudFrontDomain key,
      metadata := spreadMerge env.imageMetadata
        [("responsiveImages", MetaVal.urls (generateResponsiveImages env key))] },
    ?_, ?_, ?_, ?_⟩
  · rw [hshape]
    exact findMedia_saveMedia db _ mediaId ⟨media, hfind⟩ hmid
  · rw [hshape]
  · exact nodup_mergeTags media.tags D
  · intro t
    exact mem_mergeTags media.tags D t

def c5Env : IngestEnv :=
  { cloudFrontDomain := "cdn", imageModeration := .ok [], videoModerationJob := .ok "j",
    detectLabels := .ok ["dog", "park"], thumbnailOk := true, optimizeOk := true,
    rawObject := .ok (), imageMetadata := [], responsiveOk := true,
    publishProfileOk := true, transcode := .ok () }

def c5Media : Media :=
  { id := "m5", url := "https://cdn/image/photo.jpg", key := "image/photo.jpg",
    type := MediaType.image, uploadedBy := "u", tags := ["vacation"],
    thumbnailUrl := Option.none, metadata := [], isFlagged := false }

theorem clean_image_tag_union_witness :
    (findMedia [c5Media] "m5" = some c5Media ∧
     c5Media.type = MediaType.image ∧
     isImage "image/photo.jpg" = true ∧
     moderateImage c5Env = false ∧
     c5Env.thumbnailOk = true ∧ c5Env.optimizeOk = true ∧ c5Env.rawObject = .ok () ∧
     detectObjects c5Env = ["dog", "park"]) ∧
    (∃ m', findMedia (processUploadedMedia c5Env [c5Media] "m5" "image/photo.jpg").db "m5" = some m' ∧
      (processUploadedMedia c5Env [c5Media] "m5" "image/photo.jpg").outcome = .ok () ∧
      m'.tags.Nodup ∧
      (∀ t, t ∈ m'.tags ↔ t ≠ "" ∧
        ∃ s, (s ∈ c5Media.tags ∨ s ∈ ["dog", "park"]) ∧ normalizeTag s = t)) :=
  ⟨⟨by decide, by decide, by decide, by decide, by decide, by decide, by decide, by decide⟩,
   clean_image_tag_union c5Env [c5Media] c5Media "m5" "image/photo.jpg" ["dog", "park"]
     (by decide) (by decide) (by decide) (by decide) (by decide) (by decide) (by decide) (by decide)⟩

/-! ## Claim C8 -/

/-- C8: for a profile-image ingest, when publishing the
profile-picture-updated notification fails, the whole transaction is
rolled back: the relational store afterwards equals the store before the
ingest began, and the error propagates to the caller. -/
theorem profile_publish_failure_rolls_back (env : IngestEnv) (db : List Media)
    (media : Media) (mediaId key : String)
    (hfind : findMedia db mediaId = some media)
    (htype : media.type = MediaType.profilePicture)
    (hkey : isImage key = true)
    (hclean : moderateImage env = false)
    (hthumb : env.thumbnailOk = true)
    (hopt : env.optimizeOk = true)
    (hraw : env.rawObject = .ok ())
    (hurl : profileUrlOf media ≠ "")
    (hpub : env.publishProfileOk = false) :
    (processUploadedMedia env db mediaId key).db = db ∧
    (processUploadedMedia env db mediaId key).outcome = .error .profilePublishFailed := by
  have hmid : media.id = mediaId := findMedia_some_id db mediaId media hfind
  have hup : updateUserProfilePicture env db media.id = .error .profilePublishFailed := by
    rw [hmid]
    simp [updateUserProfilePicture, hfind, hurl, hpub]
  constructor <;>
    simp [processUploadedMedia, ingestTxn, hfind, htype, ingestImageBranch, moderateContent,
      hkey, hclean, generateImageThumbnail, hthumb, optimizeImage, hopt, hraw, hup]

def c8Env : IngestEnv :=
  { cloudFrontDomain := "cdn", imageModeration := .ok [], videoModerationJob := .ok "j",
    detectLabels := .ok [], thumbnailOk := true, optimizeOk := true,
    rawObject := .ok (), imageMetadata := [], responsiveOk := true,
    publishProfileOk := false, transcode := .ok () }

def c8Media : Media :=
  { id := "m8", url := "https://cdn/profile_picture/p.jpg", key := "profile_picture/p.jpg",
    type := MediaType.profilePicture, uploadedBy := "u", tags := [],
    thumbnailUrl := Option.none, metadata := [], isFlagged := false }

theorem profile_publish_failure_rolls_back_witness :
    (findMedia [c8Media] "m8" = some c8Media ∧
     c8Media.type = MediaType.profilePicture ∧
     isImage "profile_picture/p.jpg" = true ∧
     moderateImage c8Env = false ∧
     c8Env.thumbnailOk = true ∧ c8Env.optimizeOk = true ∧ c8Env.rawObject = .ok () ∧
     profileUrlOf c8Media ≠ "" ∧ c8Env.publishProfileOk = false) ∧
    ((processUploadedMedia c8Env [c8Media] "m8" "profile_picture/p.jpg").db = [c8Media] ∧
     (processUploadedMedia c8Env [c8Media] "m8" "profile_picture/p.jpg").outcome =
       .error .profilePublishFailed) :=
  ⟨⟨by decide, by decide, by decide, by decide, by decide, by decide, by decide, by decide,
    by decide⟩,
   profile_publish_failure_rolls_back c8Env [c8Media] c8Media "m8" "profile_picture/p.jpg"
     (by decide) (by decide) (by decide) (by decide) (by decide) (by decide) (by decide)
     (by decide) (by decide)⟩

/-! ## Claim C1 -/

def c1Env : IngestEnv :=
  { cloudFrontDomain := "cdn.example",
    imageModeration := .error (),
    videoModerationJob := .ok "vjob", detectLabels := .ok ["Dog"],
    thumbnailOk := true, optimizeOk := true, rawObject := .ok (),
    imageMetadata := [("width", .nat 100)], responsiveOk := true,
    publishProfileOk := true, transcode := .ok () }

def c1Media : Media :=
  { id := "m1", url := "https://cdn.example/image/a.jpg", key := "image/a.jpg",
    type := MediaType.image, uploadedBy := "u1", tags := ["Trip "],
    thumbnailUrl := Option.none, metadata := [], isFlagged := false }

/-- C1 (failing input): when the downstream image-moderation call fails
(`imageModeration = error`, e.g. a timeout), the ingest does not abort:
`moderateImage` swallows the error and returns `false`, so the operation
completes successfully, the asset is persisted as not flagged, enrichment
is performed (tags merged, thumbnail URL set) and derived objects are
uploaded — contradicting the claim that a moderation failure propagates
an error and leaves the asset untouched. -/
theorem moderation_failure_swallowed_not_propagated :
    moderateImage c1Env = false ∧
    (processUploadedMedia c1Env [c1Media] "m1" "image/a.jpg").outcome = .ok () ∧
    (findMedia (processUploadedMedia c1Env [c1Media] "m1" "image/a.jpg").db "m1").map
      (fun m => m.isFlagged) = some false ∧
    (findMedia (processUploadedMedia c1Env [c1Media] "m1" "image/a.jpg").db "m1").map
      (fun m => m.tags) = some ["trip", "dog"] ∧
    (findMedia (processUploadedMedia c1Env [c1Media] "m1" "image/a.jpg").db "m1").map
      (fun m => m.thumbnailUrl) = some (some "https://cdn.example/image/a.jpg") ∧
    (processUploadedMedia c1Env [c1Media] "m1" "image/a.jpg").uploadedKeys ≠ [] := by
  decide

/-! ## Claim C6 -/

def c6Env : IngestEnv :=
  { cloudFrontDomain := "cdn.example", imageModeration := .ok [],
    videoModerationJob := .ok "j", detectLabels := .ok [], thumbnailOk := true,
    optimizeOk := true, rawObject := .ok (), imageMetadata := [], responsiveOk := true,
    publishProfileOk := true, transcode := .ok () }

/-- C6 (failing input): on a successful clean-image ingest the thumbnail
is uploaded under the `_thumbnail` key and the optimized rendition under
the `_optimized.webp` key, but both methods return the URL built from the
original `key`; the persisted public URL and thumbnail URL therefore
refer to the original uploaded object, not to the newly uploaded derived
objects — contradicting the claim. -/
theorem derived_urls_refer_to_original_object :
    generateImageThumbnail c6Env "image/a.jpg" =
      .ok ⟨"image/a_thumbnail.jpg", "https://cdn.example/image/a.jpg"⟩ ∧
    optimizeImage c6Env "image/a.jpg" =
      .ok ⟨"image/a_optimized.webp", "https://cdn.example/image/a.jpg"⟩ ∧
    urlOf c6Env.cloudFrontDomain "image/a_thumbnail.jpg" ≠ "https://cdn.example/image/a.jpg" ∧
    urlOf c6Env.cloudFrontDomain "image/a_optimized.webp" ≠ "https://cdn.example/image/a.jpg" ∧
    urlOf c6Env.cloudFrontDomain "image/a.jpg" = "https://cdn.example/image/a.jpg" := by
  decide

/-! ## Claim C4 -/

def c4Media : Media :=
  { id := "mv", url := "https://cdn/video/v.mp4", key := "video/v.mp4",
    type := MediaType.video, uploadedBy := "u", tags := [],
    thumbnailUrl := Option.none, metadata := [], isFlagged := false }

/-- A video asset with both external jobs still outstanding: the
moderation ledger item is `PENDING` and the transcode ledger item is
`IN_PROGRESS` (not terminal). -/
def c4State : SysState :=
  { mediaDb := [c4Media],
    modJobs := [("jm", { mediaId := "mv", key := "video/v.mp4", status := "PENDING",
                         isFlagged := Option.none })],
    transJobs := [("jt", { mediaId := "mv", videoKey := "video/v.mp4",
                           status := "IN_PROGRESS" })] }

def c4Env : VideoEnv :=
  { cloudFrontDomain := "cdn", jobStatus := fun _ => Option.none, videoMeta := fun _ => [] }

def c4Msg : ModMessage :=
  { jobId := "jm", jobTag := "mv", status := "SUCCEEDED",
    labels := [⟨"Graphic Violence", "Violence"⟩] }

/-- C4 is false as stated: with the transcode job still non-terminal
(`IN_PROGRESS`, its ledger entry unchanged), a flagged moderation outcome
already changes the asset — the record's moderation flag becomes `true`
immediately.  The asset does not remain in an unchanged
"PENDING_EXTERNAL" state until both jobs are terminal, and the code has
no joint both-terminal transition at all; moreover a FAILED moderation
job updates only its ledger entry and never moves the asset to any
failed state (the record is left untouched). -/
theorem partial_terminal_already_flags_asset :
    (findMedia (reconcileExternalJob c4Env c4State (.moderation c4Msg)).mediaDb "mv").map
      (fun m => m.isFlagged) = some true ∧
    lookupKey "jt" (reconcileExternalJob c4Env c4State (.moderation c4Msg)).transJobs =
      some { mediaId := "mv", videoKey := "video/v.mp4", status := "IN_PROGRESS" } ∧
    lookupKey "jm" (reconcileExternalJob c4Env c4State (.moderation c4Msg)).modJobs =
      some { mediaId := "mv", key := "video/v.mp4", status := "COMPLETED",
             isFlagged := some true } ∧
    (reconcileExternalJob c4Env c4State
        (.moderation { c4Msg with status := "FAILED", labels := [] })).mediaDb =
      c4State.mediaDb := by
  decide

/-- Embeds no source line but a fact of the source's constants: the
streaming URL produced by `extractOutputUrl` always starts with
`https://`, so the `!outputUrl` guard in `checkJobStatus` can never
fire. -/
theorem extractOutputUrl_ne_empty (domain k : String) :
    ¬ extractOutputUrl domain k = "" := by
  intro h
  have hdata : ((("https://".data ++ domain.data) ++ "/videos/transcoded/".data) ++
      (extractFileName k).data) ++ ".m3u8".data = [] := congrArg String.data h
  rcases List.append_eq_nil.mp hdata with ⟨h1, _⟩
  rcases List.append_eq_nil.mp h1 with ⟨h2, _⟩
  rcases List.append_eq_nil.mp h2 with ⟨h3, _⟩
  rcases List.append_eq_nil.mp h3 with ⟨h4, _⟩
  exact absurd h4 (by decide)

/-- C4 (amended): the code maintains no per-asset lifecycle state and no
joint both-terminal transition; each external job's terminal outcome is
applied to the asset independently and immediately upon arrival.
Concretely: (1) a `SUCCEEDED` moderation notification writes the verdict
derived from its labels to the asset's moderation flag right away —
regardless of the transcode job's state — and leaves the transcode
ledger untouched; (2) a non-`SUCCEEDED` (failed) moderation job changes
neither the asset store nor the transcode ledger (only its own ledger
entry), so no failed asset state is ever reached; (3) a `COMPLETE`
transcode poll independently sets the asset's streaming URL and merges
the probed metadata, regardless of the moderation job's state, leaving
the moderation ledger untouched; (4) a non-`COMPLETE` transcode
observation changes neither the asset store nor the moderation ledger. -/
theorem external_outcomes_applied_independently (env : VideoEnv) (st : SysState) :
    (∀ (msg : ModMessage) (m : Media), ¬ msg.jobTag = "" → msg.status = "SUCCEEDED" →
       findMedia st.mediaDb msg.jobTag = some m →
       findMedia (reconcileExternalJob env st (.moderation msg)).mediaDb msg.jobTag =
         some { m with isFlagged := !(msg.labels.filter isExplicitLabel).isEmpty } ∧
       (reconcileExternalJob env st (.moderation msg)).transJobs = st.transJobs) ∧
    (∀ msg : ModMessage, ¬ msg.status = "SUCCEEDED" →
       (reconcileExternalJob env st (.moderation msg)).mediaDb = st.mediaDb ∧
       (reconcileExternalJob env st (.moderation msg)).transJobs = st.transJobs) ∧
    (∀ (jobId : String) (rec : TransJobRec) (m : Media),
       env.jobStatus jobId = some "COMPLETE" →
       lookupKey jobId st.transJobs = some rec →
       ¬ rec.mediaId = "" → ¬ rec.videoKey = "" →
       findMedia st.mediaDb rec.mediaId = some m →
       findMedia (reconcileExternalJob env st (.transcode jobId)).mediaDb rec.mediaId =
         some { m with url := extractOutputUrl env.cloudFrontDomain rec.videoKey,
                       metadata := spreadMerge m.metadata (env.videoMeta rec.videoKey) } ∧
       (reconcileExternalJob env st (.transcode jobId)).modJobs = st.modJobs) ∧
    (∀ (jobId status : String), env.jobStatus jobId = some status → ¬ status = "COMPLETE" →
       (reconcileExternalJob env st (.transcode jobId)).mediaDb = st.mediaDb ∧
       (reconcileExternalJob env st (.transcode jobId)).modJobs = st.modJobs) := by
  refine ⟨?_, ?_, ?_, ?_⟩
  · intro msg m htag hst hfind
    constructor
    · have hid : ∀ x : Media,
          ({ x with isFlagged := !(msg.labels.filter isExplicitLabel).isEmpty } : Media).id = x.id :=
        fun _ => rfl
      simp [reconcileExternalJob, processVideoModerationMessage, htag, hst, updateModerationStatus]
      rw [findMedia_updateMediaDb _ _ hid st.mediaDb, hfind]
      rfl
    · simp [reconcileExternalJob, processVideoModerationMessage, htag, hst]
  · intro msg hns
    by_cases htag : msg.jobTag = ""
    · constructor <;> simp [reconcileExternalJob, processVideoModerationMessage, htag]
    · constructor <;> simp [reconcileExternalJob, processVideoModerationMessage, htag, hns]
  · intro jobId rec m hstat hrec hm hv hfind
    have hu := extractOutputUrl_ne_empty env.cloudFrontDomain rec.videoKey
    constructor
    · have hidU : ∀ x : Media,
          ({ x with url := extractOutputUrl env.cloudFrontDomain rec.videoKey } : Media).id = x.id :=
        fun _ => rfl
      have hidM : ∀ x : Media,
          ({ x with metadata := spreadMerge x.metadata (env.videoMeta rec.videoKey) } : Media).id = x.id :=
        fun _ => rfl
      simp [reconcileExternalJob, checkJobStatus, hstat, hrec, hm, hv, hu]
      rw [findMedia_updateMediaDb _ _ hidM, findMedia_updateMediaDb _ _ hidU, hfind]
      rfl
    · simp [reconcileExternalJob, checkJobStatus, hstat, hrec, hm, hv, hu]
  · intro jobId status hstat hnc
    cases hrec : lookupKey jobId st.transJobs with
    | none => constructor <;> simp [reconcileExternalJob, checkJobStatus, hstat, hrec]
    | some rec =>
        by_cases hm : rec.mediaId = ""
        · constructor <;> simp [reconcileExternalJob, checkJobStatus, hstat, hrec, hm]
        · by_cases hv : rec.videoKey = ""
          · constructor <;> simp [reconcileExternalJob, checkJobStatus, hstat, hrec, hm, hv]
          · constructor <;> simp [reconcileExternalJob, checkJobStatus, hstat, hrec, hm, hv, hnc]

/-- A provider environment for the witness: the transcode job `jt` polls
as `COMPLETE`, the job `jf` polls as `ERROR`. -/
def c4PollEnv : VideoEnv :=
  { cloudFrontDomain := "cdn",
    jobStatus := fun j =>
      if j = "jt" then some "COMPLETE" else if j = "jf" then some "ERROR" else Option.none,
    videoMeta := fun _ => [("duration", MetaVal.nat 12)] }

theorem external_outcomes_applied_independently_witness :
    (¬ c4Msg.jobTag = "" ∧ c4Msg.status = "SUCCEEDED" ∧
     findMedia c4State.mediaDb c4Msg.jobTag = some c4Media ∧
     c4PollEnv.jobStatus "jt" = some "COMPLETE" ∧
     lookupKey "jt" c4State.transJobs =
       some { mediaId := "mv", videoKey := "video/v.mp4", status := "IN_PROGRESS" } ∧
     c4PollEnv.jobStatus "jf" = some "ERROR") ∧
    (findMedia (reconcileExternalJob c4PollEnv c4State (.moderation c4Msg)).mediaDb c4Msg.jobTag =
       some { c4Media with isFlagged := true } ∧
     (reconcileExternalJob c4PollEnv c4State (.moderation c4Msg)).transJobs = c4State.transJobs) ∧
    ((reconcileExternalJob c4PollEnv c4State
        (.moderation { c4Msg with status := "FAILED", labels := [] })).mediaDb = c4State.mediaDb ∧
     (reconcileExternalJob c4PollEnv c4State
        (.moderation { c4Msg with status := "FAILED", labels := [] })).transJobs = c4State.transJobs) ∧
    (findMedia (reconcileExternalJob c4PollEnv c4State (.transcode "jt")).mediaDb "mv" =
       some { c4Media with url := "https://cdn/videos/transcoded/v.m3u8",
                           metadata := [("duration", MetaVal.nat 12)] } ∧
     (reconcileExternalJob c4PollEnv c4State (.transcode "jt")).modJobs = c4State.modJobs) ∧
    ((reconcileExternalJob c4PollEnv c4State (.transcode "jf")).mediaDb = c4State.mediaDb ∧
     (reconcileExternalJob c4PollEnv c4State (.transcode "jf")).modJobs = c4State.modJobs) :=
  ⟨⟨by decide, by decide, by decide, by decide, by decide, by decide⟩,
   (external_outcomes_applied_independently c4PollEnv c4State).1 c4Msg c4Media
     (by decide) (by decide) (by decide),
   (external_outcomes_applied_independently c4PollEnv c4State).2.1
     { c4Msg with status := "FAILED", labels := [] } (by decide),
   (external_outcomes_applied_independently c4PollEnv c4State).2.2.1 "jt"
     { mediaId := "mv", videoKey := "video/v.mp4", status := "IN_PROGRESS" } c4Media
     (by decide) (by decide) (by decide) (by decide) (by decide),
   (external_outcomes_applied_independently c4PollEnv c4State).2.2.2 "jf" "ERROR"
     (by decide) (by decide)⟩

/-! ## Claim C3 -/

/-- Replaying the same moderation notification is a no-op on top of its
first application. -/
theorem processVideoModerationMessage_idem (st : SysState) (msg : ModMessage) :
    processVideoModerationMessage (processVideoModerationMessage st msg) msg =
      processVideoModerationMessage st msg := by
  by_cases h1 : msg.jobTag = ""
  · simp [processVideoModerationMessage, h1]
  · by_cases h2 : msg.status = "SUCCEEDED"
    · simp only [processVideoModerationMessage, if_neg h1, h2, ite_true, updateModerationStatus,
        SysState.mk.injEq, eq_self_iff_true, and_true, true_and]
      constructor
      · apply updateMediaDb_idem
        · intro m; rfl
        · intro m; rfl
      · apply upsert_idem
        intro v; rfl
    · simp only [processVideoModerationMessage, if_neg h1, if_neg h2, SysState.mk.injEq,
        eq_self_iff_true, and_true, true_and]
      apply upsert_idem
      intro v; rfl

/-- A double application of the COMPLETE-path media updates (URL write
then metadata merge) collapses onto a single application. -/
theorem updateMediaDb_pair_idem (i : String) (f g : Media → Media)
    (hfg : ∀ m, f (g (f (g m))) = f (g m))
    (hf : ∀ m, (f m).id = m.id) (hg : ∀ m, (g m).id = m.id) (db : List Media) :
    updateMediaDb i f (updateMediaDb i g (updateMediaDb i f (updateMediaDb i g db))) =
      updateMediaDb i f (updateMediaDb i g db) := by
  have hfg_id : ∀ m, ((fun m => f (g m)) m).id = m.id := fun m => (hf (g m)).trans (hg m)
  rw [updateMediaDb_comp i f g hg (updateMediaDb i f (updateMediaDb i g db)),
      updateMediaDb_comp i f g hg db]
  exact updateMediaDb_idem i (fun m => f (g m)) hfg hfg_id db

/-- Replaying the same transcode poll observation is a no-op on top of
its first application (the provider answers deterministically for a
given job id). -/
theorem checkJobStatus_idem (env : VideoEnv) (st : SysState) (jobId : String) :
    checkJobStatus env (checkJobStatus env st jobId) jobId = checkJobStatus env st jobId := by
  cases hs : env.jobStatus jobId with
  | none => simp [checkJobStatus, hs]
  | some status =>
    cases hrec : lookupKey jobId st.transJobs with
    | none =>
        have h1 : checkJobStatus env st jobId = st := by simp [checkJobStatus, hs, hrec]
        rw [h1, h1]
    | some rec =>
      by_cases hm : rec.mediaId = ""
      · have h1 : checkJobStatus env st jobId = st := by simp [checkJobStatus, hs, hrec, hm]
        rw [h1, h1]
      · by_cases hv : rec.videoKey = ""
        · have h1 : checkJobStatus env st jobId = st := by simp [checkJobStatus, hs, hrec, hm, hv]
          rw [h1, h1]
        · by_cases hc : status = "COMPLETE"
          · by_cases hu : extractOutputUrl env.cloudFrontDomain rec.videoKey = ""
            · have h1 : checkJobStatus env st jobId = st := by
                simp [checkJobStatus, hs, hrec, hm, hv, hc, hu]
              rw [h1, h1]
            · simp [checkJobStatus, hs, hrec, hm, hv, hc, hu, lookupKey_upsert]
              constructor
              · apply updateMediaDb_pair_idem
                · intro m; simp [spreadMerge_idem]
                · intro m; rfl
                · intro m; rfl
              · apply upsert_idem
                intro v; rfl
          · simp [checkJobStatus, hs, hrec, hm, hv, hc, lookupKey_upsert]
            apply upsert_idem
            intro v; rfl

/-- C3: reconciling the same external job outcome twice yields a system
state (relational record plus both job-ledger tables) identical to
reconciling it once — the moderation flag write, the streaming-URL write,
the metadata merge and the ledger status updates are all absorbed on
replay, so no tag or metadata merge is double-applied. -/
theorem reconcileExternalJob_idem (env : VideoEnv) (st : SysState) (o : ExternalOutcome) :
    reconcileExternalJob env (reconcileExternalJob env st o) o =
      reconcileExternalJob env st o := by
  cases o with
  | moderation msg => exact processVideoModerationMessage_idem st msg
  | transcode jobId => exact checkJobStatus_idem env st jobId

end EcohMedia
